import Mathlib

/-!
Verification of `pkg/security/ebpf/c/chown.h` from the datadog-agent
repository: the syscall correlation and event-construction engine for the
chown family of syscalls (chown, lchown, fchown, their 16-bit legacy forms,
and fchownat).

The file `chown.h` is shallowly embedded below.  The helpers it calls
(`cache_syscall`, `pop_syscall`, `fetch_policy`, `is_discarded_by_process`,
`IS_UNHANDLED_ERROR`, `is_pipefs_mount_id`, the context fillers and
`send_event`) are declared in `syscalls.h` and other headers that are not
part of the visible source; they are modelled from the specification's
contracts.  External predicates with no specified behaviour are abstracted
into an environment record `Env`, so every theorem holds for all of their
possible instantiations.
-/

namespace Chown

/-- Modelled from the spec: opaque event-type tag for the chown family
(`EVENT_CHOWN` in the C enum).  Its concrete numeric value is immaterial:
no theorem depends on it, only on its identity. -/
def EVENT_CHOWN : Nat := 1

/-- Embeds `struct policy_t`: the filtering-policy snapshot, carrying the
mode bits resolved by `fetch_policy`. -/
structure PolicyT where
  mode : Nat
  deriving DecidableEq, Repr

/-- Embeds the `path_key` component of `struct file_t`: the resolved file
identity key (inode, mount id). -/
structure PathKeyT where
  ino : Nat
  mount_id : Nat
  deriving DecidableEq, Repr

/-- Embeds `struct file_t`: the resolved file identity carried in the
in-flight record and copied into the outgoing event. -/
structure FileT where
  path_key : PathKeyT
  flags : Nat
  deriving DecidableEq, Repr

/-- Embeds the `setattr` variant payload of `struct syscall_cache_t` as used
by `chown.h`: the opaque dentry handle, the (incrementally resolved) file
identity, and the uid/gid arguments captured at entry. -/
structure SetattrT where
  dentry : Nat
  file : FileT
  user : Nat
  group : Nat
  deriving DecidableEq, Repr

/-- Embeds `struct syscall_cache_t`: one in-flight record of the correlation
table — the event-type discriminator, the policy snapshot captured at entry,
and the variant payload. -/
structure SyscallCacheT where
  type : Nat
  policy : PolicyT
  setattr : SetattrT
  deriving DecidableEq, Repr

/-- Embeds `struct kevent_t` as used by `chown.h`: only the `async` flag is
written by this file. -/
structure KeventT where
  async : Nat
  deriving DecidableEq, Repr

/-- Embeds `struct syscall_t` as used by `chown.h`: the raw return value of
the completed syscall. -/
structure SyscallT where
  retval : Int
  deriving DecidableEq, Repr

/-- Embeds `struct chown_event_t`: the immutable outgoing event.  The
process, span and container contexts are filled by external collaborators
(`fill_process_context` and friends) and are treated as opaque values. -/
structure ChownEventT where
  event : KeventT
  process : Nat
  span : Nat
  container : Nat
  syscall : SyscallT
  file : FileT
  uid : Nat
  gid : Nat
  deriving DecidableEq, Repr

/-- Embeds `struct pt_regs` as used by the kretprobes: only the return-value
register read by `PT_REGS_RC` is relevant. -/
structure PtRegs where
  rc : Int
  deriving DecidableEq, Repr

/-- Embeds `struct tracepoint_syscalls_sys_exit_t`: the per-syscall exit
tracepoint argument record, of which `chown.h` reads only `ret`. -/
structure TracepointSyscallsSysExitT where
  ret : Int
  deriving DecidableEq, Repr

/-- Embeds `struct tracepoint_raw_syscalls_sys_exit_t`: the raw-syscalls
exit tracepoint argument record, of which `chown.h` reads only `ret`. -/
structure TracepointRawSyscallsSysExitT where
  ret : Int
  deriving DecidableEq, Repr

/-- Environment of external collaborators declared outside the visible
source (`syscalls.h` and the headers it includes).  Each field abstracts
one external function, keyed where relevant by the current task id:
`fetch_policy` (policy-store lookup), `is_discarded_by_process` (taking the
policy mode and the event type), `IS_UNHANDLED_ERROR` (benign-error
classification of a raw return value), `is_pipefs_mount_id` (mount
classification), and the best-effort context fillers. -/
structure Env where
  fetch_policy : Nat → PolicyT
  is_discarded_by_process : Nat → Nat → Bool
  IS_UNHANDLED_ERROR : Int → Bool
  is_pipefs_mount_id : Nat → Bool
  fill_process : Nat → Nat
  fill_container : Nat → Nat
  fill_span : Nat → Nat

/-- Modelled from the spec: the Correlation Table — "a fixed-capacity,
per-executing-task keyed store of in-flight syscall records, one slot per
task".  Fixed capacity and eviction are outside the visible code paths of
`chown.h`; the table is modelled as the per-task slot map it implements. -/
def Table : Type := Nat → Option SyscallCacheT

/-- Modelled from the spec: `cache_syscall` (declared in `syscalls.h`) —
`push(task_id, type, record)`: stores the record in the current task's
slot, overwriting any prior occupant, leaving every other slot unchanged. -/
def cache_syscall (st : Table) (task : Nat) (sc : SyscallCacheT) : Table :=
  fun t => if t = task then some sc else st t

/-- Modelled from the spec: `pop_syscall` (declared in `syscalls.h`) —
`pop(task_id, type) -> record|none`: removes and returns the current task's
in-flight record when its event-type tag matches, and otherwise returns
none with no side effect. -/
def pop_syscall (st : Table) (task : Nat) (ty : Nat) :
    Option SyscallCacheT × Table :=
  match st task with
  | none => (none, st)
  | some sc =>
    if sc.type = ty then (some sc, fun t => if t = task then none else st t)
    else (none, st)

/-- Embeds `trace__sys_chown`: the canonical entry handler.  Fetches the
policy for `EVENT_CHOWN`; if the process is discarded by policy it returns
with the table untouched; otherwise it builds the in-flight record (type
tag, policy snapshot, `setattr` payload holding the uid/gid arguments, all
remaining fields zero-initialised as by the C designated initialiser) and
pushes it into the correlation table for the current task. -/
def trace__sys_chown (env : Env) (st : Table) (task : Nat)
    (user group : Nat) : Table :=
  let policy := env.fetch_policy EVENT_CHOWN
  if env.is_discarded_by_process policy.mode EVENT_CHOWN then st
  else
    cache_syscall st task
      { type := EVENT_CHOWN
        policy := policy
        setattr :=
          { dentry := 0
            file := { path_key := { ino := 0, mount_id := 0 }, flags := 0 }
            user := user
            group := group } }

/-- Embeds `SYSCALL_KPROBE3(chown)`: entry probe for `chown(filename, user,
group)`; delegates to the canonical entry handler, ignoring `filename`. -/
def kprobe_chown (env : Env) (st : Table) (task : Nat)
    (filename : Nat) (user group : Nat) : Table :=
  trace__sys_chown env st task user group

/-- Embeds `SYSCALL_KPROBE3(lchown)`: entry probe for `lchown(filename,
user, group)`; delegates to the canonical entry handler. -/
def kprobe_lchown (env : Env) (st : Table) (task : Nat)
    (filename : Nat) (user group : Nat) : Table :=
  trace__sys_chown env st task user group

/-- Embeds `SYSCALL_KPROBE3(fchown)`: entry probe for `fchown(fd, user,
group)`; delegates to the canonical entry handler, ignoring `fd`. -/
def kprobe_fchown (env : Env) (st : Table) (task : Nat)
    (fd : Int) (user group : Nat) : Table :=
  trace__sys_chown env st task user group

/-- Embeds `SYSCALL_KPROBE3(chown16)`: entry probe for the legacy 16-bit
`chown16`; delegates to the canonical entry handler. -/
def kprobe_chown16 (env : Env) (st : Table) (task : Nat)
    (filename : Nat) (user group : Nat) : Table :=
  trace__sys_chown env st task user group

/-- Embeds `SYSCALL_KPROBE3(lchown16)`: entry probe for the legacy 16-bit
`lchown16`; delegates to the canonical entry handler. -/
def kprobe_lchown16 (env : Env) (st : Table) (task : Nat)
    (filename : Nat) (user group : Nat) : Table :=
  trace__sys_chown env st task user group

/-- Embeds `SYSCALL_KPROBE3(fchown16)`: entry probe for the legacy 16-bit
`fchown16`; delegates to the canonical entry handler, ignoring `fd`. -/
def kprobe_fchown16 (env : Env) (st : Table) (task : Nat)
    (fd : Int) (user group : Nat) : Table :=
  trace__sys_chown env st task user group

/-- Embeds `SYSCALL_KPROBE4(fchownat)`: entry probe for `fchownat(dirfd,
filename, user, group)`; delegates to the canonical entry handler, ignoring
both `dirfd` and `filename`. -/
def kprobe_fchownat (env : Env) (st : Table) (task : Nat)
    (dirfd : Int) (filename : Nat) (user group : Nat) : Table :=
  trace__sys_chown env st task user group

/-- Embeds `sys_chown_ret`: the canonical exit handler.  Pops the current
task's in-flight `EVENT_CHOWN` record (no-op when none exists); drops the
call silently when the return value is classified as an unhandled benign
error or when the resolved mount id is pipefs-backed; otherwise assembles
the `chown_event_t` (raw return value, async = 0, the record's file
identity and uid/gid), fills the process/container/span contexts, and sends
the event.  The emitted events are returned as a list (empty or singleton)
alongside the updated table. -/
def sys_chown_ret (env : Env) (st : Table) (task : Nat) (retval : Int) :
    Table × List ChownEventT :=
  match pop_syscall st task EVENT_CHOWN with
  | (none, st1) => (st1, [])
  | (some sc, st1) =>
    if env.IS_UNHANDLED_ERROR retval then (st1, [])
    else if env.is_pipefs_mount_id sc.setattr.file.path_key.mount_id then
      (st1, [])
    else
      (st1,
        [{ event := { async := 0 }
           process := env.fill_process task
           span := env.fill_span task
           container := env.fill_container task
           syscall := { retval := retval }
           file := sc.setattr.file
           uid := sc.setattr.user
           gid := sc.setattr.group }])

/-- Embeds `PT_REGS_RC`: reads the return-value register of `pt_regs`. -/
def PT_REGS_RC (ctx : PtRegs) : Int := ctx.rc

/-- Embeds `kprobe_sys_chown_ret`: extracts the raw return value from the
registers and delegates to the canonical exit handler. -/
def kprobe_sys_chown_ret (env : Env) (st : Table) (task : Nat)
    (ctx : PtRegs) : Table × List ChownEventT :=
  sys_chown_ret env st task (PT_REGS_RC ctx)

/-- Embeds `SYSCALL_KRETPROBE(chown)`: return probe for `chown`. -/
def kretprobe_chown (env : Env) (st : Table) (task : Nat)
    (ctx : PtRegs) : Table × List ChownEventT :=
  kprobe_sys_chown_ret env st task ctx

/-- Embeds `SYSCALL_KRETPROBE(lchown)`: return probe for `lchown`. -/
def kretprobe_lchown (env : Env) (st : Table) (task : Nat)
    (ctx : PtRegs) : Table × List ChownEventT :=
  kprobe_sys_chown_ret env st task ctx

/-- Embeds `SYSCALL_KRETPROBE(fchown)`: return probe for `fchown`. -/
def kretprobe_fchown (env : Env) (st : Table) (task : Nat)
    (ctx : PtRegs) : Table × List ChownEventT :=
  kprobe_sys_chown_ret env st task ctx

/-- Embeds `SYSCALL_KRETPROBE(chown16)`: return probe for `chown16`. -/
def kretprobe_chown16 (env : Env) (st : Table) (task : Nat)
    (ctx : PtRegs) : Table × List ChownEventT :=
  kprobe_sys_chown_ret env st task ctx

/-- Embeds `SYSCALL_KRETPROBE(lchown16)`: return probe for `lchown16`. -/
def kretprobe_lchown16 (env : Env) (st : Table) (task : Nat)
    (ctx : PtRegs) : Table × List ChownEventT :=
  kprobe_sys_chown_ret env st task ctx

/-- Embeds `SYSCALL_KRETPROBE(fchown16)`: return probe for `fchown16`. -/
def kretprobe_fchown16 (env : Env) (st : Table) (task : Nat)
    (ctx : PtRegs) : Table × List ChownEventT :=
  kprobe_sys_chown_ret env st task ctx

/-- Embeds `SYSCALL_KRETPROBE(fchownat)`: return probe for `fchownat`. -/
def kretprobe_fchownat (env : Env) (st : Table) (task : Nat)
    (ctx : PtRegs) : Table × List ChownEventT :=
  kprobe_sys_chown_ret env st task ctx

/-- Embeds `tracepoint_syscalls_sys_exit_chown`: exit tracepoint for
`chown`; passes `args->ret` to the canonical exit handler. -/
def tracepoint_syscalls_sys_exit_chown (env : Env) (st : Table) (task : Nat)
    (args : TracepointSyscallsSysExitT) : Table × List ChownEventT :=
  sys_chown_ret env st task args.ret

/-- Embeds `tracepoint_syscalls_sys_exit_lchown`: exit tracepoint for
`lchown`. -/
def tracepoint_syscalls_sys_exit_lchown (env : Env) (st : Table) (task : Nat)
    (args : TracepointSyscallsSysExitT) : Table × List ChownEventT :=
  sys_chown_ret env st task args.ret

/-- Embeds `tracepoint_syscalls_sys_exit_fchown`: exit tracepoint for
`fchown`. -/
def tracepoint_syscalls_sys_exit_fchown (env : Env) (st : Table) (task : Nat)
    (args : TracepointSyscallsSysExitT) : Table × List ChownEventT :=
  sys_chown_ret env st task args.ret

/-- Embeds `tracepoint_syscalls_sys_exit_chown16`: exit tracepoint for
`chown16`. -/
def tracepoint_syscalls_sys_exit_chown16 (env : Env) (st : Table)
    (task : Nat) (args : TracepointSyscallsSysExitT) :
    Table × List ChownEventT :=
  sys_chown_ret env st task args.ret

/-- Embeds `tracepoint_syscalls_sys_exit_lchown16`: exit tracepoint for
`lchown16`. -/
def tracepoint_syscalls_sys_exit_lchown16 (env : Env) (st : Table)
    (task : Nat) (args : TracepointSyscallsSysExitT) :
    Table × List ChownEventT :=
  sys_chown_ret env st task args.ret

/-- Embeds `tracepoint_syscalls_sys_exit_fchown16`: exit tracepoint for
`fchown16`. -/
def tracepoint_syscalls_sys_exit_fchown16 (env : Env) (st : Table)
    (task : Nat) (args : TracepointSyscallsSysExitT) :
    Table × List ChownEventT :=
  sys_chown_ret env st task args.ret

/-- Embeds `tracepoint_syscalls_sys_exit_fchownat`: exit tracepoint for
`fchownat`. -/
def tracepoint_syscalls_sys_exit_fchownat (env : Env) (st : Table)
    (task : Nat) (args : TracepointSyscallsSysExitT) :
    Table × List ChownEventT :=
  sys_chown_ret env st task args.ret

/-- Embeds `tracepoint_handle_sys_chown_exit`: the raw-syscalls exit
tracepoint; passes `args->ret` to the canonical exit handler. -/
def tracepoint_handle_sys_chown_exit (env : Env) (st : Table) (task : Nat)
    (args : TracepointRawSyscallsSysExitT) : Table × List ChownEventT :=
  sys_chown_ret env st task args.ret

/-- Modelled from the spec: between entry and exit, the approver and dentry
resolution pipeline (outside the visible source; `chown.h` notes "dentry
resolution in setattr.h") attaches the resolved file identity to the
in-flight record while it is still in flight.  Modelled as an arbitrary
update of the current task's record's `setattr.file` field, leaving every
other slot untouched. -/
def attach_resolved_file (st : Table) (task : Nat)
    (resolve : FileT → FileT) : Table :=
  fun t =>
    if t = task then
      match st task with
      | none => none
      | some sc =>
        some { sc with setattr := { sc.setattr with
                                    file := resolve sc.setattr.file } }
    else st t

/-- Composition of one full entry/exit round trip for the current task:
canonical entry with the uid/gid arguments, in-flight file resolution, then
canonical exit with the raw return value. -/
def chown_entry_exit (env : Env) (st : Table) (task : Nat)
    (user group : Nat) (resolve : FileT → FileT) (retval : Int) :
    Table × List ChownEventT :=
  sys_chown_ret env
    (attach_resolved_file (trace__sys_chown env st task user group)
      task resolve)
    task retval

end Chown

namespace Chown

/-! Concrete fixtures used by the witnesses. -/

/-- Concrete environment in which nothing is filtered: policy never
discards, only `-EFAULT` (-14) is classified as an unhandled benign error,
and no mount id is pipefs-backed. -/
def envA : Env :=
  { fetch_policy := fun _ => { mode := 0 }
    is_discarded_by_process := fun _ _ => false
    IS_UNHANDLED_ERROR := fun r => decide (r = -14)
    is_pipefs_mount_id := fun _ => false
    fill_process := fun _ => 0
    fill_container := fun _ => 0
    fill_span := fun _ => 0 }

/-- Concrete environment identical to `envA` except that the policy
discards every process. -/
def envDiscard : Env :=
  { envA with is_discarded_by_process := fun _ _ => true }

/-- Concrete environment identical to `envA` except that every mount id is
classified as pipefs-backed. -/
def envPipefs : Env :=
  { envA with is_pipefs_mount_id := fun _ => true }

/-- The empty correlation table: every slot is free. -/
def stEmpty : Table := fun _ => none

/-- Concrete in-flight chown record used by the witnesses. -/
def scA : SyscallCacheT :=
  { type := EVENT_CHOWN
    policy := { mode := 0 }
    setattr :=
      { dentry := 3
        file := { path_key := { ino := 9, mount_id := 2 }, flags := 0 }
        user := 1000
        group := 1001 } }

/-- Concrete record equal to `scA` except for its policy snapshot. -/
def scB : SyscallCacheT := { scA with policy := { mode := 7 } }

end Chown

namespace Chown

/-! Helper lemmas shared by the claim theorems. -/

/-- Popping (with the matching type tag) right after a push returns the
pushed record and the table with the task's slot freed. -/
theorem pop_syscall_cache_syscall (st : Table) (task : Nat)
    (sc : SyscallCacheT) (ty : Nat) (h : sc.type = ty) :
    pop_syscall (cache_syscall st task sc) task ty =
      (some sc, fun t => if t = task then none else st t) := by
  unfold pop_syscall cache_syscall
  simp only [if_pos rfl, h, if_true]
  refine congrArg (Prod.mk (some sc)) ?_
  funext t
  by_cases ht : t = task <;> simp [ht]

/-- Popping from a table whose slot for the task is free returns none and
the table unchanged. -/
theorem pop_syscall_of_none (st : Table) (task : Nat) (ty : Nat)
    (h : st task = none) : pop_syscall st task ty = (none, st) := by
  unfold pop_syscall
  rw [h]

end Chown

namespace Chown

/-- C3: all seven entry probes are extensionally equal to the canonical
entry function `trace__sys_chown` applied to their uid/gid arguments, and
every exit trigger form — each per-variant kretprobe, each per-variant exit
tracepoint, and the raw-syscalls exit tracepoint — is extensionally equal
to the canonical exit function `sys_chown_ret` applied to the raw return
value it receives. -/
theorem variants_funnel_into_canonical (env : Env) (st : Table) (task : Nat)
    (filename : Nat) (fd dirfd : Int) (user group : Nat) (ctx : PtRegs)
    (args : TracepointSyscallsSysExitT)
    (rargs : TracepointRawSyscallsSysExitT) :
    kprobe_chown env st task filename user group =
        trace__sys_chown env st task user group ∧
    kprobe_lchown env st task filename user group =
        trace__sys_chown env st task user group ∧
    kprobe_fchown env st task fd user group =
        trace__sys_chown env st task user group ∧
    kprobe_chown16 env st task filename user group =
        trace__sys_chown env st task user group ∧
    kprobe_lchown16 env st task filename user group =
        trace__sys_chown env st task user group ∧
    kprobe_fchown16 env st task fd user group =
        trace__sys_chown env st task user group ∧
    kprobe_fchownat env st task dirfd filename user group =
        trace__sys_chown env st task user group ∧
    kretprobe_chown env st task ctx = sys_chown_ret env st task ctx.rc ∧
    kretprobe_lchown env st task ctx = sys_chown_ret env st task ctx.rc ∧
    kretprobe_fchown env st task ctx = sys_chown_ret env st task ctx.rc ∧
    kretprobe_chown16 env st task ctx = sys_chown_ret env st task ctx.rc ∧
    kretprobe_lchown16 env st task ctx = sys_chown_ret env st task ctx.rc ∧
    kretprobe_fchown16 env st task ctx = sys_chown_ret env st task ctx.rc ∧
    kretprobe_fchownat env st task ctx = sys_chown_ret env st task ctx.rc ∧
    tracepoint_syscalls_sys_exit_chown env st task args =
        sys_chown_ret env st task args.ret ∧
    tracepoint_syscalls_sys_exit_lchown env st task args =
        sys_chown_ret env st task args.ret ∧
    tracepoint_syscalls_sys_exit_fchown env st task args =
        sys_chown_ret env st task args.ret ∧
    tracepoint_syscalls_sys_exit_chown16 env st task args =
        sys_chown_ret env st task args.ret ∧
    tracepoint_syscalls_sys_exit_lchown16 env st task args =
        sys_chown_ret env st task args.ret ∧
    tracepoint_syscalls_sys_exit_fchown16 env st task args =
        sys_chown_ret env st task args.ret ∧
    tracepoint_syscalls_sys_exit_fchownat env st task args =
        sys_chown_ret env st task args.ret ∧
    tracepoint_handle_sys_chown_exit env st task rargs =
        sys_chown_ret env st task rargs.ret :=
  ⟨rfl, rfl, rfl, rfl, rfl, rfl, rfl, rfl, rfl, rfl, rfl, rfl, rfl, rfl,
   rfl, rfl, rfl, rfl, rfl, rfl, rfl, rfl⟩

/-- C4: correlation-table round trip — a push for a task followed by a pop
for that task returns exactly the record pushed; a pop for a task with no
in-flight record returns none with the table unchanged; and pop is
exactly-once: a second pop for the same task and event type after a
successful pop returns none. -/
theorem push_pop_roundtrip (st : Table) (task : Nat) (sc : SyscallCacheT)
    (ty : Nat) (h : sc.type = ty) :
    (pop_syscall (cache_syscall st task sc) task ty).1 = some sc ∧
    (st task = none → pop_syscall st task ty = (none, st)) ∧
    (pop_syscall (pop_syscall (cache_syscall st task sc) task ty).2 task
      ty).1 = none := by
  refine ⟨?_, ?_, ?_⟩
  · rw [pop_syscall_cache_syscall st task sc ty h]
  · intro h0
    exact pop_syscall_of_none st task ty h0
  · rw [pop_syscall_cache_syscall st task sc ty h]
    simp [pop_syscall]

/-- Witness for C4 on concrete inputs: pushing `scA` for task 5 into the
empty table and popping it returns `scA`; popping the empty table returns
none unchanged; a second pop returns none. -/
theorem push_pop_roundtrip_witness :
    (pop_syscall (cache_syscall stEmpty 5 scA) 5 EVENT_CHOWN).1 =
        some scA ∧
    pop_syscall stEmpty 5 EVENT_CHOWN = (none, stEmpty) ∧
    (pop_syscall (pop_syscall (cache_syscall stEmpty 5 scA) 5
      EVENT_CHOWN).2 5 EVENT_CHOWN).1 = none := by
  have h := push_pop_roundtrip stEmpty 5 scA EVENT_CHOWN rfl
  exact ⟨h.1, h.2.1 rfl, h.2.2⟩

/-- C5: when the fetched policy's mode classifies the process as discarded,
the entry handler returns immediately: the correlation table is returned
unchanged (no in-flight record is created), and an entry/exit pair starting
from a fresh task slot emits zero events. -/
theorem policy_discard_no_record_no_event (env : Env) (st : Table)
    (task user group : Nat) (resolve : FileT → FileT) (retval : Int)
    (hd : env.is_discarded_by_process (env.fetch_policy EVENT_CHOWN).mode
      EVENT_CHOWN = true) :
    trace__sys_chown env st task user group = st ∧
    (st task = none →
      (chown_entry_exit env st task user group resolve retval).2 = []) := by
  constructor
  · simp [trace__sys_chown, hd]
  · intro h
    simp [chown_entry_exit, trace__sys_chown, hd, attach_resolved_file,
      sys_chown_ret, pop_syscall, h]

/-- Witness for C5 at the spec's scenario: with a discard-by-process policy
active, entry with uid=0 gid=0 leaves the table unchanged and the
entry/exit pair emits zero events. -/
theorem policy_discard_no_record_no_event_witness :
    trace__sys_chown envDiscard stEmpty 5 0 0 = stEmpty ∧
    (chown_entry_exit envDiscard stEmpty 5 0 0 id 0).2 = [] := by
  have h := policy_discard_no_record_no_event envDiscard stEmpty 5 0 0 id 0
    rfl
  exact ⟨h.1, h.2 rfl⟩

/-- C7: when the popped in-flight chown record's resolved file carries a
mount id classified as pipefs, the exit handler emits no event. -/
theorem pipefs_filtered_no_event (env : Env) (st : Table) (task : Nat)
    (retval : Int) (sc : SyscallCacheT) (h : st task = some sc)
    (ht : sc.type = EVENT_CHOWN)
    (hp : env.is_pipefs_mount_id sc.setattr.file.path_key.mount_id =
      true) :
    (sys_chown_ret env st task retval).2 = [] := by
  cases hu : env.IS_UNHANDLED_ERROR retval with
  | true => simp [sys_chown_ret, pop_syscall, h, ht, hu]
  | false => simp [sys_chown_ret, pop_syscall, h, ht, hu, hp]

/-- Witness for C7 on concrete inputs: in the environment classifying every
mount id as pipefs, exiting with return value 0 over the in-flight record
`scA` emits no event. -/
theorem pipefs_filtered_no_event_witness :
    (sys_chown_ret envPipefs (cache_syscall stEmpty 5 scA) 5 0).2 = [] :=
  pipefs_filtered_no_event envPipefs (cache_syscall stEmpty 5 scA) 5 0 scA
    (by simp [cache_syscall]) rfl rfl

end Chown

namespace Chown

/-- C1: an entry (with any uid/gid arguments) followed by its matching exit
from a fresh task slot, with arbitrary in-flight file resolution in
between, emits exactly one event whose `syscall.retval` field equals the
raw exit return value — unless the invocation is discarded by process
policy at entry, by benign-error classification at exit, or by pipefs mount
filtering at exit, in which case it emits zero events.  In particular the
pair never emits more than one event. -/
theorem entry_exit_emits_exactly_once_or_discarded (env : Env) (st : Table)
    (task user group : Nat) (resolve : FileT → FileT) (retval : Int)
    (h : st task = none) :
    (chown_entry_exit env st task user group resolve retval).2 =
      (if env.is_discarded_by_process (env.fetch_policy EVENT_CHOWN).mode
          EVENT_CHOWN then []
       else if env.IS_UNHANDLED_ERROR retval then []
       else if env.is_pipefs_mount_id
          (resolve { path_key := { ino := 0, mount_id := 0 },
                     flags := 0 }).path_key.mount_id then []
       else
         [{ event := { async := 0 }
            process := env.fill_process task
            span := env.fill_span task
            container := env.fill_container task
            syscall := { retval := retval }
            file := resolve { path_key := { ino := 0, mount_id := 0 },
                              flags := 0 }
            uid := user
            gid := group }]) ∧
    (chown_entry_exit env st task user group resolve retval).2.length ≤
      1 := by
  have key : (chown_entry_exit env st task user group resolve retval).2 =
      (if env.is_discarded_by_process (env.fetch_policy EVENT_CHOWN).mode
          EVENT_CHOWN then []
       else if env.IS_UNHANDLED_ERROR retval then []
       else if env.is_pipefs_mount_id
          (resolve { path_key := { ino := 0, mount_id := 0 },
                     flags := 0 }).path_key.mount_id then []
       else
         [{ event := { async := 0 }
            process := env.fill_process task
            span := env.fill_span task
            container := env.fill_container task
            syscall := { retval := retval }
            file := resolve { path_key := { ino := 0, mount_id := 0 },
                              flags := 0 }
            uid := user
            gid := group }]) := by
    cases hd : env.is_discarded_by_process
        (env.fetch_policy EVENT_CHOWN).mode EVENT_CHOWN with
    | true =>
      simp [chown_entry_exit, trace__sys_chown, hd, attach_resolved_file,
        sys_chown_ret, pop_syscall, h]
    | false =>
      cases hu : env.IS_UNHANDLED_ERROR retval with
      | true =>
        simp [chown_entry_exit, trace__sys_chown, hd, hu, cache_syscall,
          attach_resolved_file, sys_chown_ret, pop_syscall]
      | false =>
        cases hp : env.is_pipefs_mount_id
            (resolve { path_key := { ino := 0, mount_id := 0 },
                       flags := 0 }).path_key.mount_id with
        | true =>
          simp [chown_entry_exit, trace__sys_chown, hd, hu, hp,
            cache_syscall, attach_resolved_file, sys_chown_ret,
            pop_syscall]
        | false =>
          simp [chown_entry_exit, trace__sys_chown, hd, hu, hp,
            cache_syscall, attach_resolved_file, sys_chown_ret,
            pop_syscall]
  refine ⟨key, ?_⟩
  rw [key]
  split
  · simp
  · split
    · simp
    · split
      · simp
      · simp

/-- Witness for C1 at the spec's scenario: from the empty table, entry with
uid=1000 gid=1000 followed by exit with return value 0 emits exactly one
event, with return code 0, uid 1000, gid 1000. -/
theorem entry_exit_emits_exactly_once_or_discarded_witness :
    (chown_entry_exit envA stEmpty 5 1000 1000 id 0).2 =
      [{ event := { async := 0 }
         process := 0
         span := 0
         container := 0
         syscall := { retval := 0 }
         file := { path_key := { ino := 0, mount_id := 0 }, flags := 0 }
         uid := 1000
         gid := 1000 }] := by
  have h := entry_exit_emits_exactly_once_or_discarded envA stEmpty 5 1000
    1000 id 0 rfl
  rw [h.1]
  rfl

end Chown

namespace Chown

/-- Every event emitted by an entry/exit round trip from a fresh task slot
carries the uid/gid arguments captured at entry. -/
theorem entry_exit_uid_gid_aux (env : Env) (st : Table)
    (task user group : Nat) (resolve : FileT → FileT) (retval : Int)
    (h : st task = none) :
    ∀ e ∈ (chown_entry_exit env st task user group resolve retval).2,
      e.uid = user ∧ e.gid = group := by
  intro e he
  cases hd : env.is_discarded_by_process
      (env.fetch_policy EVENT_CHOWN).mode EVENT_CHOWN with
  | true =>
    simp [chown_entry_exit, trace__sys_chown, hd, attach_resolved_file,
      sys_chown_ret, pop_syscall, h] at he
  | false =>
    cases hu : env.IS_UNHANDLED_ERROR retval with
    | true =>
      simp [chown_entry_exit, trace__sys_chown, hd, hu, cache_syscall,
        attach_resolved_file, sys_chown_ret, pop_syscall] at he
    | false =>
      cases hp : env.is_pipefs_mount_id
          (resolve { path_key := { ino := 0, mount_id := 0 },
                     flags := 0 }).path_key.mount_id with
      | true =>
        simp [chown_entry_exit, trace__sys_chown, hd, hu, hp,
          cache_syscall, attach_resolved_file, sys_chown_ret,
          pop_syscall] at he
      | false =>
        simp [chown_entry_exit, trace__sys_chown, hd, hu, hp,
          cache_syscall, attach_resolved_file, sys_chown_ret,
          pop_syscall] at he
        subst he
        exact ⟨rfl, rfl⟩

/-- C2: for every chown-family variant entry probe — path-based, fd-based,
legacy 16-bit, and dirfd-relative — composing the entry (from a fresh task
slot) with arbitrary in-flight file resolution and the canonical exit
yields only events whose `uid` and `gid` fields equal exactly the user and
group arguments captured at entry, for every filename/fd/dirfd argument. -/
theorem emitted_uid_gid_match_entry_args (env : Env) (st : Table)
    (task filename : Nat) (fd dirfd : Int) (user group : Nat)
    (resolve : FileT → FileT) (retval : Int) (h : st task = none) :
    (∀ e ∈ (sys_chown_ret env (attach_resolved_file
        (kprobe_chown env st task filename user group) task resolve)
        task retval).2, e.uid = user ∧ e.gid = group) ∧
    (∀ e ∈ (sys_chown_ret env (attach_resolved_file
        (kprobe_lchown env st task filename user group) task resolve)
        task retval).2, e.uid = user ∧ e.gid = group) ∧
    (∀ e ∈ (sys_chown_ret env (attach_resolved_file
        (kprobe_fchown env st task fd user group) task resolve)
        task retval).2, e.uid = user ∧ e.gid = group) ∧
    (∀ e ∈ (sys_chown_ret env (attach_resolved_file
        (kprobe_chown16 env st task filename user group) task resolve)
        task retval).2, e.uid = user ∧ e.gid = group) ∧
    (∀ e ∈ (sys_chown_ret env (attach_resolved_file
        (kprobe_lchown16 env st task filename user group) task resolve)
        task retval).2, e.uid = user ∧ e.gid = group) ∧
    (∀ e ∈ (sys_chown_ret env (attach_resolved_file
        (kprobe_fchown16 env st task fd user group) task resolve)
        task retval).2, e.uid = user ∧ e.gid = group) ∧
    (∀ e ∈ (sys_chown_ret env (attach_resolved_file
        (kprobe_fchownat env st task dirfd filename user group) task
        resolve) task retval).2, e.uid = user ∧ e.gid = group) :=
  ⟨entry_exit_uid_gid_aux env st task user group resolve retval h,
   entry_exit_uid_gid_aux env st task user group resolve retval h,
   entry_exit_uid_gid_aux env st task user group resolve retval h,
   entry_exit_uid_gid_aux env st task user group resolve retval h,
   entry_exit_uid_gid_aux env st task user group resolve retval h,
   entry_exit_uid_gid_aux env st task user group resolve retval h,
   entry_exit_uid_gid_aux env st task user group resolve retval h⟩

/-- Witness for C2 on concrete inputs: the event emitted by a `chown` entry
with uid=1000 gid=1001 (filename argument 77) followed by exit with return
value 0 carries uid 1000 and gid 1001. -/
theorem emitted_uid_gid_match_entry_args_witness :
    ({ event := { async := 0 }
       process := 0
       span := 0
       container := 0
       syscall := { retval := 0 }
       file := { path_key := { ino := 0, mount_id := 0 }, flags := 0 }
       uid := 1000
       gid := 1001 } : ChownEventT).uid = 1000 ∧
    ({ event := { async := 0 }
       process := 0
       span := 0
       container := 0
       syscall := { retval := 0 }
       file := { path_key := { ino := 0, mount_id := 0 }, flags := 0 }
       uid := 1000
       gid := 1001 } : ChownEventT).gid = 1001 :=
  (emitted_uid_gid_match_entry_args envA stEmpty 5 77 3 4 1000 1001 id 0
    rfl).1 _ (by decide)

end Chown

namespace Chown

/-- C6: at exit with an in-flight chown record present, a return value
classified as an unhandled benign error causes the popped call to be
silently dropped with no event; any other return value — including other
negative error codes — still produces an event (when the record's mount id
is not pipefs-filtered), and that event carries the raw return code in its
`syscall.retval` field. -/
theorem retval_classification (env : Env) (st : Table) (task : Nat)
    (retval : Int) (sc : SyscallCacheT) (h : st task = some sc)
    (ht : sc.type = EVENT_CHOWN) :
    (env.IS_UNHANDLED_ERROR retval = true →
      (sys_chown_ret env st task retval).2 = []) ∧
    (env.IS_UNHANDLED_ERROR retval = false →
      env.is_pipefs_mount_id sc.setattr.file.path_key.mount_id = false →
      (sys_chown_ret env st task retval).2 =
        [{ event := { async := 0 }
           process := env.fill_process task
           span := env.fill_span task
           container := env.fill_container task
           syscall := { retval := retval }
           file := sc.setattr.file
           uid := sc.setattr.user
           gid := sc.setattr.group }]) := by
  constructor
  · intro hu
    simp [sys_chown_ret, pop_syscall, h, ht, hu]
  · intro hu hp
    simp [sys_chown_ret, pop_syscall, h, ht, hu, hp]

/-- Witness for C6 on concrete inputs: over the in-flight record `scA`, an
exit with return value -14 (classified benign in `envA`, mirroring
`-EFAULT`) emits no event, while an exit with return value -1 (a different
negative error) emits one event carrying return code -1. -/
theorem retval_classification_witness :
    (sys_chown_ret envA (cache_syscall stEmpty 5 scA) 5 (-14)).2 = [] ∧
    (sys_chown_ret envA (cache_syscall stEmpty 5 scA) 5 (-1)).2 =
      [{ event := { async := 0 }
         process := 0
         span := 0
         container := 0
         syscall := { retval := -1 }
         file := { path_key := { ino := 9, mount_id := 2 }, flags := 0 }
         uid := 1000
         gid := 1001 }] :=
  ⟨(retval_classification envA (cache_syscall stEmpty 5 scA) 5 (-14) scA
      (by decide) rfl).1 (by decide),
   (retval_classification envA (cache_syscall stEmpty 5 scA) 5 (-1) scA
      (by decide) rfl).2 (by decide) rfl⟩

/-- C8: per-task isolation and overwrite-on-push for the correlation
table — a second push for the same task overwrites the prior record; a push
or pop for one task leaves every other task's slot unchanged; and a pop for
a task T2 distinct from T1 observes exactly what it would have observed had
T1's push never happened. -/
theorem table_per_task_isolation (st : Table) (t1 t2 : Nat)
    (sc sc2 : SyscallCacheT) (ty : Nat) (hne : t1 ≠ t2) :
    cache_syscall (cache_syscall st t1 sc) t1 sc2 =
      cache_syscall st t1 sc2 ∧
    cache_syscall st t1 sc t2 = st t2 ∧
    (pop_syscall st t1 ty).2 t2 = st t2 ∧
    (pop_syscall (cache_syscall st t1 sc) t2 ty).1 =
      (pop_syscall st t2 ty).1 := by
  have h21 : t2 ≠ t1 := Ne.symm hne
  refine ⟨?_, ?_, ?_, ?_⟩
  · funext t
    by_cases ht : t = t1 <;> simp [cache_syscall, ht]
  · simp [cache_syscall, h21]
  · cases hst : st t1 with
    | none => simp [pop_syscall, hst]
    | some sc0 =>
      by_cases hty : sc0.type = ty
      · simp [pop_syscall, hst, hty, h21]
      · simp [pop_syscall, hst, hty]
  · have hs2 : cache_syscall st t1 sc t2 = st t2 := by
      simp [cache_syscall, h21]
    cases hst : st t2 with
    | none => simp [pop_syscall, hst, hs2]
    | some sc0 =>
      by_cases hty : sc0.type = ty
      · simp [pop_syscall, hst, hty, hs2]
      · simp [pop_syscall, hst, hty, hs2]

/-- Witness for C8 on concrete distinct tasks 5 and 6: pushing `scA` then
`scB` for task 5 equals pushing `scB` alone; task 6's slot is untouched by
task 5's push and pop; and task 6's pop is unaffected by task 5's push. -/
theorem table_per_task_isolation_witness :
    cache_syscall (cache_syscall stEmpty 5 scA) 5 scB =
      cache_syscall stEmpty 5 scB ∧
    cache_syscall stEmpty 5 scA 6 = stEmpty 6 ∧
    (pop_syscall stEmpty 5 EVENT_CHOWN).2 6 = stEmpty 6 ∧
    (pop_syscall (cache_syscall stEmpty 5 scA) 6 EVENT_CHOWN).1 =
      (pop_syscall stEmpty 6 EVENT_CHOWN).1 :=
  table_per_task_isolation stEmpty 5 6 scA scB EVENT_CHOWN (by decide)

/-- C9: exit handling never consults the policy snapshot stored in the
in-flight record — popping two chown records that agree on everything
except their policy field makes `sys_chown_ret` behave identically: same
resulting table and same emitted events (or equally none). -/
theorem exit_ignores_policy_snapshot (env : Env) (st : Table) (task : Nat)
    (retval : Int) (sc1 sc2 : SyscallCacheT)
    (h1 : sc1.type = EVENT_CHOWN) (h2 : sc2.type = EVENT_CHOWN)
    (hs : sc1.setattr = sc2.setattr) :
    sys_chown_ret env (cache_syscall st task sc1) task retval =
      sys_chown_ret env (cache_syscall st task sc2) task retval := by
  unfold sys_chown_ret
  rw [pop_syscall_cache_syscall st task sc1 EVENT_CHOWN h1,
    pop_syscall_cache_syscall st task sc2 EVENT_CHOWN h2]
  simp [hs]

/-- Witness for C9 on concrete inputs: over the records `scA` and `scB`,
which differ only in their policy snapshot, the exit handler produces the
same table and the same emitted events for return value 0. -/
theorem exit_ignores_policy_snapshot_witness :
    sys_chown_ret envA (cache_syscall stEmpty 5 scA) 5 0 =
      sys_chown_ret envA (cache_syscall stEmpty 5 scB) 5 0 :=
  exit_ignores_policy_snapshot envA stEmpty 5 0 scA scB rfl rfl rfl

/-- C10: entry handling never reads the filename, file-descriptor or dirfd
arguments — each variant entry probe yields the same table for any two
values of those arguments (including a null or invalid path and a closed
fd), and whenever the policy does not discard the process an in-flight
record holding exactly the uid/gid arguments (with zeroed file identity) is
cached even though the target was never inspected. -/
theorem entry_ignores_file_arguments (env : Env) (st : Table) (task : Nat)
    (f1 f2 : Nat) (fd1 fd2 d1 d2 : Int) (user group : Nat) :
    kprobe_chown env st task f1 user group =
      kprobe_chown env st task f2 user group ∧
    kprobe_lchown env st task f1 user group =
      kprobe_lchown env st task f2 user group ∧
    kprobe_fchown env st task fd1 user group =
      kprobe_fchown env st task fd2 user group ∧
    kprobe_chown16 env st task f1 user group =
      kprobe_chown16 env st task f2 user group ∧
    kprobe_lchown16 env st task f1 user group =
      kprobe_lchown16 env st task f2 user group ∧
    kprobe_fchown16 env st task fd1 user group =
      kprobe_fchown16 env st task fd2 user group ∧
    kprobe_fchownat env st task d1 f1 user group =
      kprobe_fchownat env st task d2 f2 user group ∧
    (env.is_discarded_by_process (env.fetch_policy EVENT_CHOWN).mode
        EVENT_CHOWN = false →
      kprobe_chown env st task f1 user group task =
        some { type := EVENT_CHOWN
               policy := env.fetch_policy EVENT_CHOWN
               setattr :=
                 { dentry := 0
                   file := { path_key := { ino := 0, mount_id := 0 }
                             flags := 0 }
                   user := user
                   group := group } }) := by
  refine ⟨rfl, rfl, rfl, rfl, rfl, rfl, rfl, ?_⟩
  intro hd
  simp [kprobe_chown, trace__sys_chown, hd, cache_syscall]

/-- Witness for C10 on concrete inputs: a `chown` entry with filename
argument 0 (a null path) and uid=1000 gid=1001 caches the in-flight record
holding exactly those uid/gid values. -/
theorem entry_ignores_file_arguments_witness :
    kprobe_chown envA stEmpty 5 0 1000 1001 5 =
      some { type := EVENT_CHOWN
             policy := { mode := 0 }
             setattr :=
               { dentry := 0
                 file := { path_key := { ino := 0, mount_id := 0 }
                           flags := 0 }
                 user := 1000
                 group := 1001 } } :=
  (entry_ignores_file_arguments envA stEmpty 5 0 7 3 4 1 2 1000
    1001).2.2.2.2.2.2.2 rfl

end Chown
